import Mathlib

/-!
Verification of the app-relay client FFI layer (`src/apprelay/src/lib.rs`).

The library wraps an OHTTP protocol engine (the `ohttp` crate, an external
collaborator) behind a C foreign-function interface.  We embed the FFI layer
shallowly:

* byte buffers are `List Nat`;
* the protocol engine is an abstract structure of `Except`-returning
  operations, mirroring the collaborator contract
  (`ClientRequest::new`, `ClientRequest::encapsulate`,
  `ClientResponse::decapsulate`);
* `Box` ownership across the boundary is embedded as a handle table:
  `Box::into_raw` allocates a fresh handle, passing a `Box` argument by value
  consumes (removes) the handle, `Box::into_raw` of a passed-in box leaks it
  back (the handle stays live);
* the thread-local error slot written by `error_ffi::update_last_error` is a
  map from thread ids to the most recent `ClientError`.
-/

/-- Byte strings crossing the boundary. -/
abbrev Bytes := List Nat

/-- Thread identifiers, used to index the thread-local error slot. -/
abbrev ThreadId := Nat

/-- Embedding of `enum ClientError` from `lib.rs` (the error payload of the
underlying `ohttp::Error` is abstracted to a numeric code). -/
inductive ClientError where
  | RequestContextInitialization (e : Nat)
  | EncapsulationFailed (e : Nat)
  | DecapsulationFailed (e : Nat)
  | InvalidArgument (s : String)
deriving DecidableEq

/-- The protocol engine collaborator (the `ohttp` crate), abstracted: `Req` is
the type of request-encapsulation capabilities (`ohttp::ClientRequest`), `Resp`
the type of single-use response-decapsulation capabilities
(`ohttp::ClientResponse`).  Engine errors are numeric codes. -/
structure Engine (Req Resp : Type) where
  clientRequestNew : Bytes → Except Nat Req
  encapsulate : Req → Bytes → Except Nat (Bytes × Resp)
  decapsulate : Resp → Bytes → Except Nat Bytes

/-- Embedding of `struct RequestContext` from `lib.rs`. -/
structure RequestContext (Resp : Type) where
  encapsulated_request : Bytes
  response_context : Resp
deriving DecidableEq

/-- Embedding of `struct ResponseContext` from `lib.rs`. -/
structure ResponseContext where
  response : Bytes
deriving DecidableEq

/-- The observable state of the FFI layer: the thread-local error slots and
the tables of live (allocated, not yet consumed or released) request and
response contexts.  A live handle is a key of the table; `Box` deallocation
removes the key. -/
structure FFIState (Resp : Type) where
  lastError : ThreadId → Option ClientError
  reqHeap : List (Nat × RequestContext Resp)
  respHeap : List (Nat × ResponseContext)
  nextId : Nat

/-- Modelled from the spec: `error_ffi::update_last_error` (module `error_ffi`
is declared in `lib.rs` but its source is not in `src/`).  The spec describes
it as a thread-local slot holding the most recent failure, overwritten by each
new failure: writing on one thread leaves every other thread's slot
untouched. -/
def update_last_error {Resp : Type} (tid : ThreadId) (err : ClientError)
    (st : FFIState Resp) : FFIState Resp :=
  { st with lastError := fun t => if t = tid then some err else st.lastError t }

/-- Embedding of `encapsulate_request_ffi` from `lib.rs`: build a
`ClientRequest` from the config bytes (recording `RequestContextInitialization`
and returning null on failure), encapsulate the message (recording
`EncapsulationFailed` and returning null on failure), and on success box a new
`RequestContext` holding the ciphertext and the paired `ClientResponse`
capability, returning it as a fresh owned handle. -/
def encapsulate_request_ffi {Req Resp : Type} (E : Engine Req Resp)
    (tid : ThreadId) (encoded_config encoded_msg : Bytes)
    (st : FFIState Resp) : Option Nat × FFIState Resp :=
  match E.clientRequestNew encoded_config with
  | .error err =>
      (none, update_last_error tid (ClientError.RequestContextInitialization err) st)
  | .ok client =>
      match E.encapsulate client encoded_msg with
      | .error err =>
          (none, update_last_error tid (ClientError.EncapsulationFailed err) st)
      | .ok (enc_request, client_response) =>
          (some st.nextId,
            { st with
                reqHeap := (st.nextId, ⟨enc_request, client_response⟩) :: st.reqHeap,
                nextId := st.nextId + 1 })

/-- Embedding of `request_context_message_ffi`: the `Box<RequestContext>`
argument is immediately leaked back via `Box::into_raw`, so the handle stays
live and the call returns a view of the encapsulated-request buffer (the
pointer is modelled as the buffer it points at). -/
def request_context_message_ffi {Resp : Type} (h : Nat) (st : FFIState Resp) :
    Option Bytes × FFIState Resp :=
  ((st.reqHeap.lookup h).map (fun c => c.encapsulated_request), st)

/-- Embedding of `request_context_message_len_ffi`: same leak-back pattern,
returning the buffer's byte length. -/
def request_context_message_len_ffi {Resp : Type} (h : Nat) (st : FFIState Resp) :
    Option Nat × FFIState Resp :=
  ((st.reqHeap.lookup h).map (fun c => c.encapsulated_request.length), st)

/-- Embedding of `request_context_message_drop_ffi`: the `Box<RequestContext>`
argument is taken by value and dropped, deallocating the context. -/
def request_context_message_drop_ffi {Resp : Type} (h : Nat)
    (st : FFIState Resp) : FFIState Resp :=
  { st with reqHeap := st.reqHeap.filter (fun p => p.1 != h) }

/-- Embedding of `response_context_message_ffi`: leak-back accessor returning a
view of the decapsulated-response buffer. -/
def response_context_message_ffi {Resp : Type} (h : Nat) (st : FFIState Resp) :
    Option Bytes × FFIState Resp :=
  ((st.respHeap.lookup h).map (fun c => c.response), st)

/-- Embedding of `response_context_message_len_ffi`. -/
def response_context_message_len_ffi {Resp : Type} (h : Nat) (st : FFIState Resp) :
    Option Nat × FFIState Resp :=
  ((st.respHeap.lookup h).map (fun c => c.response.length), st)

/-- Embedding of `decapsulate_response_ffi` from `lib.rs`: the
`Box<RequestContext>` argument is consumed (dropped at the end of the call on
every path, so the handle is removed from the table up front), the embedded
`ClientResponse` capability decapsulates the response bytes (recording
`DecapsulationFailed` and returning null on failure), and on success a fresh
`ResponseContext` holding the plaintext is boxed and returned. -/
def decapsulate_response_ffi {Req Resp : Type} (E : Engine Req Resp)
    (tid : ThreadId) (h : Nat) (encapsulated_response : Bytes)
    (st : FFIState Resp) : Option Nat × FFIState Resp :=
  match st.reqHeap.lookup h with
  | none => (none, st)
  | some context =>
      let st₁ : FFIState Resp :=
        { st with reqHeap := st.reqHeap.filter (fun p => p.1 != h) }
      match E.decapsulate context.response_context encapsulated_response with
      | .error err =>
          (none, update_last_error tid (ClientError.DecapsulationFailed err) st₁)
      | .ok response =>
          (some st₁.nextId,
            { st₁ with
                respHeap := (st₁.nextId, ⟨response⟩) :: st₁.respHeap,
                nextId := st₁.nextId + 1 })

/-- The full client-side exchange, composed as the spec's round-trip scenario
drives it: encapsulate, read the ciphertext out of the request handle, let the
`server` (the gateway side of a matching engine) turn it into a response
ciphertext, decapsulate it, and read the plaintext out of the response handle.
Any null along the way yields `none`. -/
def ffiRoundTrip {Req Resp : Type} (E : Engine Req Resp) (server : Bytes → Bytes)
    (tid : ThreadId) (cfg msg : Bytes) (st : FFIState Resp) : Option Bytes :=
  match encapsulate_request_ffi E tid cfg msg st with
  | (none, _) => none
  | (some h, st₁) =>
      match (request_context_message_ffi h st₁).1 with
      | none => none
      | some ct =>
          match decapsulate_response_ffi E tid h (server ct) st₁ with
          | (none, _) => none
          | (some h', st₂) => (st₂.respHeap.lookup h').map (fun r => r.response)

/-- A deterministic stub engine for concrete witnesses: a capability is the
config (resp. the config length); encapsulation prepends the config to the
message; decapsulation drops the config-length prefix.  An empty config is
rejected at context creation, an empty message at encapsulation, a too-short
response at decapsulation. -/
def stubEngine : Engine Bytes Nat where
  clientRequestNew := fun cfg => if cfg.length = 0 then .error 0 else .ok cfg
  encapsulate := fun req msg =>
    if msg.length = 0 then .error 1 else .ok (req ++ msg, req.length)
  decapsulate := fun n r => if r.length < n then .error 2 else .ok (r.drop n)

/-- The empty initial FFI state: no recorded errors, no live handles. -/
def st0 : FFIState Nat :=
  { lastError := fun _ => none, reqHeap := [], respHeap := [], nextId := 0 }

/-- The 4-byte message "ping" of the spec's literal scenario. -/
def ping : Bytes := [112, 105, 110, 103]

/-- Claim C1: for every configuration/message pair the engine accepts, calling
`encapsulate_request_ffi` and feeding the resulting ciphertext through a
matching engine (a `server` whose response the paired capability decapsulates
back to the message), then calling `decapsulate_response_ffi` with that
response ciphertext, yields a `ResponseContext` whose buffer equals the
original message bytes. -/
theorem encapsulate_then_decapsulate_round_trip
    {Req Resp : Type} (E : Engine Req Resp) (server : Bytes → Bytes)
    (tid : ThreadId) (cfg msg : Bytes) (st : FFIState Resp)
    (client : Req) (ct : Bytes) (cap : Resp)
    (h1 : E.clientRequestNew cfg = .ok client)
    (h2 : E.encapsulate client msg = .ok (ct, cap))
    (h3 : E.decapsulate cap (server ct) = .ok msg) :
    ffiRoundTrip E server tid cfg msg st = some msg := by
  simp only [ffiRoundTrip, encapsulate_request_ffi, decapsulate_response_ffi,
    request_context_message_ffi, h1, h2]
  simp [List.lookup, h3]

/-- Witness for C1, the spec's literal scenario: config `[1]`, message
`"ping"`, identity relay; the round trip returns exactly `"ping"`. -/
theorem encapsulate_then_decapsulate_round_trip_witness :
    ffiRoundTrip stubEngine id 0 [1] ping st0 = some ping :=
  encapsulate_then_decapsulate_round_trip stubEngine id 0 [1] ping st0
    [1] ([1] ++ ping) 1 rfl rfl rfl

/-- Looking up a key in an association list from which every entry with that
key has been filtered out yields nothing. -/
theorem lookup_filter_ne_self {β : Type} (l : List (Nat × β)) (h : Nat) :
    (l.filter (fun p => p.1 != h)).lookup h = none := by
  induction l with
  | nil => rfl
  | cons a l ih =>
      obtain ⟨k, v⟩ := a
      by_cases hk : k = h
      · simpa [List.filter_cons, hk] using ih
      · have hpt : ((k, v).1 != h) = true := by simp [hk]
        have hne : (h == k) = false := by simp [Ne.symm hk]
        simp only [List.filter_cons, hpt, if_true, List.lookup, hne, ih]

/-- Writing thread `tid`'s error slot sets that slot. -/
theorem update_last_error_same {Resp : Type} (tid : ThreadId) (err : ClientError)
    (st : FFIState Resp) :
    (update_last_error tid err st).lastError tid = some err := by
  simp [update_last_error]

/-- Writing thread `tid`'s error slot leaves every other thread's slot
untouched. -/
theorem update_last_error_other {Resp : Type} (tid t : ThreadId)
    (err : ClientError) (st : FFIState Resp) (h : t ≠ tid) :
    (update_last_error tid err st).lastError t = st.lastError t := by
  simp [update_last_error, h]

/-- Claim C2: `encapsulate_request_ffi` returns the null sentinel exactly when
the engine's context construction or its encapsulation step fails; a
`RequestContextInitialization` error is recorded in the first case and an
`EncapsulationFailed` error in the second; on success it returns a non-null
handle to a `RequestContext` bundling the engine's ciphertext and the paired
response-decapsulation capability. -/
theorem encapsulate_request_ffi_null_iff_engine_failure
    {Req Resp : Type} (E : Engine Req Resp) (tid : ThreadId)
    (cfg msg : Bytes) (st : FFIState Resp) :
    (∀ e, E.clientRequestNew cfg = .error e →
      (encapsulate_request_ffi E tid cfg msg st).1 = none ∧
      (encapsulate_request_ffi E tid cfg msg st).2.lastError tid =
        some (ClientError.RequestContextInitialization e)) ∧
    (∀ client e, E.clientRequestNew cfg = .ok client →
      E.encapsulate client msg = .error e →
      (encapsulate_request_ffi E tid cfg msg st).1 = none ∧
      (encapsulate_request_ffi E tid cfg msg st).2.lastError tid =
        some (ClientError.EncapsulationFailed e)) ∧
    (∀ client ct cap, E.clientRequestNew cfg = .ok client →
      E.encapsulate client msg = .ok (ct, cap) →
      (encapsulate_request_ffi E tid cfg msg st).1 = some st.nextId ∧
      (encapsulate_request_ffi E tid cfg msg st).2.reqHeap.lookup st.nextId =
        some ⟨ct, cap⟩) := by
  refine ⟨fun e he => ?_, fun client e hc he => ?_, fun client ct cap hc he => ?_⟩
  · simp [encapsulate_request_ffi, he, update_last_error_same]
  · simp [encapsulate_request_ffi, hc, he, update_last_error_same]
  · simp [encapsulate_request_ffi, hc, he, List.lookup]

/-- Witness for C2 on the stub engine: empty config records
`RequestContextInitialization` and returns null; valid config with empty
message records `EncapsulationFailed` and returns null; config `[1]` with
message `"ping"` returns handle `0` holding ciphertext `[1] ++ ping` and
capability `1`. -/
theorem encapsulate_request_ffi_null_iff_engine_failure_witness :
    ((encapsulate_request_ffi stubEngine 0 [] ping st0).1 = none ∧
      (encapsulate_request_ffi stubEngine 0 [] ping st0).2.lastError 0 =
        some (ClientError.RequestContextInitialization 0)) ∧
    ((encapsulate_request_ffi stubEngine 0 [1] [] st0).1 = none ∧
      (encapsulate_request_ffi stubEngine 0 [1] [] st0).2.lastError 0 =
        some (ClientError.EncapsulationFailed 1)) ∧
    ((encapsulate_request_ffi stubEngine 0 [1] ping st0).1 = some 0 ∧
      (encapsulate_request_ffi stubEngine 0 [1] ping st0).2.reqHeap.lookup 0 =
        some ⟨[1] ++ ping, 1⟩) :=
  ⟨(encapsulate_request_ffi_null_iff_engine_failure stubEngine 0 [] ping st0).1
      0 rfl,
    (encapsulate_request_ffi_null_iff_engine_failure stubEngine 0 [1] [] st0).2.1
      [1] 1 rfl rfl,
    (encapsulate_request_ffi_null_iff_engine_failure stubEngine 0 [1] ping st0).2.2
      [1] ([1] ++ ping) 1 rfl rfl⟩

/-- Claim C3: on a live (not-yet-consumed) request handle,
`decapsulate_response_ffi` returns the null sentinel exactly when the embedded
decapsulation capability fails, recording a `DecapsulationFailed` error in that
case; on success it returns a non-null handle to a `ResponseContext` whose
buffer is the plaintext the capability produced. -/
theorem decapsulate_response_ffi_null_iff_decap_failure
    {Req Resp : Type} (E : Engine Req Resp) (tid : ThreadId) (h : Nat)
    (respBytes : Bytes) (st : FFIState Resp) (ctx : RequestContext Resp)
    (hlive : st.reqHeap.lookup h = some ctx) :
    (∀ e, E.decapsulate ctx.response_context respBytes = .error e →
      (decapsulate_response_ffi E tid h respBytes st).1 = none ∧
      (decapsulate_response_ffi E tid h respBytes st).2.lastError tid =
        some (ClientError.DecapsulationFailed e)) ∧
    (∀ pt, E.decapsulate ctx.response_context respBytes = .ok pt →
      (decapsulate_response_ffi E tid h respBytes st).1 = some st.nextId ∧
      (decapsulate_response_ffi E tid h respBytes st).2.respHeap.lookup st.nextId =
        some ⟨pt⟩) := by
  refine ⟨fun e he => ?_, fun pt hpt => ?_⟩
  · simp [decapsulate_response_ffi, hlive, he, update_last_error_same]
  · simp [decapsulate_response_ffi, hlive, hpt, List.lookup]

/-- Witness for C3 on the stub engine, both outcomes from a state holding the
live handle `0`: a too-short response records `DecapsulationFailed` and
returns null; the matching response yields response handle `1` whose buffer is
`"ping"`. -/
theorem decapsulate_response_ffi_null_iff_decap_failure_witness :
    ((decapsulate_response_ffi stubEngine 0 0 []
        (encapsulate_request_ffi stubEngine 0 [1] ping st0).2).1 = none ∧
      (decapsulate_response_ffi stubEngine 0 0 []
        (encapsulate_request_ffi stubEngine 0 [1] ping st0).2).2.lastError 0 =
        some (ClientError.DecapsulationFailed 2)) ∧
    ((decapsulate_response_ffi stubEngine 0 0 ([1] ++ ping)
        (encapsulate_request_ffi stubEngine 0 [1] ping st0).2).1 = some 1 ∧
      (decapsulate_response_ffi stubEngine 0 0 ([1] ++ ping)
        (encapsulate_request_ffi stubEngine 0 [1] ping st0).2).2.respHeap.lookup 1 =
        some ⟨ping⟩) :=
  ⟨(decapsulate_response_ffi_null_iff_decap_failure stubEngine 0 0 []
      (encapsulate_request_ffi stubEngine 0 [1] ping st0).2 ⟨[1] ++ ping, 1⟩
      rfl).1 2 rfl,
    (decapsulate_response_ffi_null_iff_decap_failure stubEngine 0 0 ([1] ++ ping)
      (encapsulate_request_ffi stubEngine 0 [1] ping st0).2 ⟨[1] ++ ping, 1⟩
      rfl).2 ping rfl⟩

/-- Claim C4: every call to `decapsulate_response_ffi` on a live request handle
consumes it in all outcomes: whether the result is a response handle or the
null sentinel, the handle is gone from the table of live request contexts (its
buffer and capability are deallocated, it is never reusable), and a separate
release of it afterwards finds nothing to free (it leaves the state
unchanged). -/
theorem decapsulate_response_ffi_consumes_handle
    {Req Resp : Type} (E : Engine Req Resp) (tid : ThreadId) (h : Nat)
    (respBytes : Bytes) (st : FFIState Resp) (ctx : RequestContext Resp)
    (hlive : st.reqHeap.lookup h = some ctx) :
    (decapsulate_response_ffi E tid h respBytes st).2.reqHeap.lookup h = none ∧
    request_context_message_drop_ffi h
        (decapsulate_response_ffi E tid h respBytes st).2 =
      (decapsulate_response_ffi E tid h respBytes st).2 := by
  have hfilter : ∀ l : List (Nat × RequestContext Resp),
      (l.filter (fun p => p.1 != h)).filter (fun p => p.1 != h) =
        l.filter (fun p => p.1 != h) := by
    intro l
    rw [List.filter_filter]
    simp
  cases hd : E.decapsulate ctx.response_context respBytes with
  | error e =>
      constructor
      · simp [decapsulate_response_ffi, hlive, hd, update_last_error,
          lookup_filter_ne_self]
      · simp [decapsulate_response_ffi, hlive, hd, update_last_error,
          request_context_message_drop_ffi, hfilter]
  | ok pt =>
      constructor
      · simp [decapsulate_response_ffi, hlive, hd, lookup_filter_ne_self]
      · simp [decapsulate_response_ffi, hlive, hd,
          request_context_message_drop_ffi, hfilter]

/-- Witness for C4: after decapsulating on handle `0` (in both the failing and
the succeeding run), handle `0` is no longer live and a further release is a
no-op. -/
theorem decapsulate_response_ffi_consumes_handle_witness :
    ((decapsulate_response_ffi stubEngine 0 0 []
        (encapsulate_request_ffi stubEngine 0 [1] ping st0).2).2.reqHeap.lookup 0 =
      none ∧
      request_context_message_drop_ffi 0
          (decapsulate_response_ffi stubEngine 0 0 []
            (encapsulate_request_ffi stubEngine 0 [1] ping st0).2).2 =
        (decapsulate_response_ffi stubEngine 0 0 []
          (encapsulate_request_ffi stubEngine 0 [1] ping st0).2).2) ∧
    ((decapsulate_response_ffi stubEngine 0 0 ([1] ++ ping)
        (encapsulate_request_ffi stubEngine 0 [1] ping st0).2).2.reqHeap.lookup 0 =
      none ∧
      request_context_message_drop_ffi 0
          (decapsulate_response_ffi stubEngine 0 0 ([1] ++ ping)
            (encapsulate_request_ffi stubEngine 0 [1] ping st0).2).2 =
        (decapsulate_response_ffi stubEngine 0 0 ([1] ++ ping)
          (encapsulate_request_ffi stubEngine 0 [1] ping st0).2).2) :=
  ⟨decapsulate_response_ffi_consumes_handle stubEngine 0 0 []
      (encapsulate_request_ffi stubEngine 0 [1] ping st0).2 ⟨[1] ++ ping, 1⟩ rfl,
    decapsulate_response_ffi_consumes_handle stubEngine 0 0 ([1] ++ ping)
      (encapsulate_request_ffi stubEngine 0 [1] ping st0).2 ⟨[1] ++ ping, 1⟩ rfl⟩

/-- A state with one live request handle (`0`, buffer `[1,2]`, capability `0`)
and one live response handle (`1`, buffer `[3,4,5]`), for accessor
witnesses. -/
def stBoth : FFIState Nat :=
  { lastError := fun _ => none,
    reqHeap := [(0, ⟨[1, 2], 0⟩)],
    respHeap := [(1, ⟨[3, 4, 5]⟩)],
    nextId := 2 }

/-- Claim C5: the data and length accessors have borrow semantics: on a live
handle they return a view of the handle's buffer (its bytes, respectively its
byte length) and return the state unchanged, so the handle is still live and
every subsequent operation sees the same state. -/
theorem accessors_borrow_semantics
    {Resp : Type} (st : FFIState Resp) (h hr : Nat)
    (ctx : RequestContext Resp) (rctx : ResponseContext)
    (hlive : st.reqHeap.lookup h = some ctx)
    (hrlive : st.respHeap.lookup hr = some rctx) :
    request_context_message_ffi h st = (some ctx.encapsulated_request, st) ∧
    request_context_message_len_ffi h st =
      (some ctx.encapsulated_request.length, st) ∧
    response_context_message_ffi hr st = (some rctx.response, st) ∧
    response_context_message_len_ffi hr st =
      (some rctx.response.length, st) := by
  refine ⟨?_, ?_, ?_, ?_⟩
  · simp [request_context_message_ffi, hlive]
  · simp [request_context_message_len_ffi, hlive]
  · simp [response_context_message_ffi, hrlive]
  · simp [response_context_message_len_ffi, hrlive]

/-- Witness for C5 on `stBoth`: all four accessors return views of the two
live buffers and leave the state untouched. -/
theorem accessors_borrow_semantics_witness :
    request_context_message_ffi 0 stBoth = (some [1, 2], stBoth) ∧
    request_context_message_len_ffi 0 stBoth = (some 2, stBoth) ∧
    response_context_message_ffi 1 stBoth = (some [3, 4, 5], stBoth) ∧
    response_context_message_len_ffi 1 stBoth = (some 3, stBoth) :=
  accessors_borrow_semantics stBoth 0 1 ⟨[1, 2], 0⟩ ⟨[3, 4, 5]⟩ rfl rfl

/-- Claim C6: the error channel is written only on failure paths: releasing a
request handle and all four accessors leave every thread's last-failure record
exactly as it was, and whenever `encapsulate_request_ffi` or
`decapsulate_response_ffi` succeeds (returns a non-null handle) the call leaves
the whole error channel unchanged. -/
theorem error_channel_written_only_on_failure
    {Req Resp : Type} (E : Engine Req Resp) (tid : ThreadId)
    (cfg msg respBytes : Bytes) (h hr : Nat) (st : FFIState Resp) :
    (request_context_message_drop_ffi h st).lastError = st.lastError ∧
    (request_context_message_ffi h st).2.lastError = st.lastError ∧
    (request_context_message_len_ffi h st).2.lastError = st.lastError ∧
    (response_context_message_ffi hr st).2.lastError = st.lastError ∧
    (response_context_message_len_ffi hr st).2.lastError = st.lastError ∧
    (∀ hh, (encapsulate_request_ffi E tid cfg msg st).1 = some hh →
      (encapsulate_request_ffi E tid cfg msg st).2.lastError = st.lastError) ∧
    (∀ hh, (decapsulate_response_ffi E tid h respBytes st).1 = some hh →
      (decapsulate_response_ffi E tid h respBytes st).2.lastError = st.lastError) := by
  refine ⟨rfl, rfl, rfl, rfl, rfl, fun hh hsome => ?_, fun hh hsome => ?_⟩
  · cases hc : E.clientRequestNew cfg with
    | error e => simp [encapsulate_request_ffi, hc] at hsome
    | ok client =>
        cases he : E.encapsulate client msg with
        | error e => simp [encapsulate_request_ffi, hc, he] at hsome
        | ok p => simp [encapsulate_request_ffi, hc, he]
  · cases hl : st.reqHeap.lookup h with
    | none => simp [decapsulate_response_ffi, hl] at hsome
    | some ctx =>
        cases hd : E.decapsulate ctx.response_context respBytes with
        | error e => simp [decapsulate_response_ffi, hl, hd] at hsome
        | ok pt => simp [decapsulate_response_ffi, hl, hd]

/-- Witness for C6: on the stub engine, a successful encapsulation from `st0`
and a successful decapsulation on `stBoth` (plus release and the accessors)
all leave the error channel as it was. -/
theorem error_channel_written_only_on_failure_witness :
    ((request_context_message_drop_ffi 0 stBoth).lastError = stBoth.lastError ∧
      (request_context_message_ffi 0 stBoth).2.lastError = stBoth.lastError ∧
      (request_context_message_len_ffi 0 stBoth).2.lastError = stBoth.lastError ∧
      (response_context_message_ffi 1 stBoth).2.lastError = stBoth.lastError ∧
      (response_context_message_len_ffi 1 stBoth).2.lastError = stBoth.lastError) ∧
    (encapsulate_request_ffi stubEngine 0 [1] ping st0).2.lastError =
      st0.lastError ∧
    (decapsulate_response_ffi stubEngine 0 0 [3, 4] stBoth).2.lastError =
      stBoth.lastError :=
  ⟨⟨(error_channel_written_only_on_failure stubEngine 0 [1] ping [3, 4] 0 1
        stBoth).1,
    (error_channel_written_only_on_failure stubEngine 0 [1] ping [3, 4] 0 1
        stBoth).2.1,
    (error_channel_written_only_on_failure stubEngine 0 [1] ping [3, 4] 0 1
        stBoth).2.2.1,
    (error_channel_written_only_on_failure stubEngine 0 [1] ping [3, 4] 0 1
        stBoth).2.2.2.1,
    (error_channel_written_only_on_failure stubEngine 0 [1] ping [3, 4] 0 1
        stBoth).2.2.2.2.1⟩,
    (error_channel_written_only_on_failure stubEngine 0 [1] ping [3, 4] 0 1
        st0).2.2.2.2.2.1 0 rfl,
    (error_channel_written_only_on_failure stubEngine 0 [1] ping [3, 4] 0 1
        stBoth).2.2.2.2.2.2 2 rfl⟩

/-- The accessor operations, for iterating arbitrary accessor call
sequences. -/
inductive AccOp where
  | reqData (h : Nat)
  | reqLen (h : Nat)
  | respData (h : Nat)
  | respLen (h : Nat)
deriving DecidableEq

/-- The state transition of one accessor call (its returned view is
discarded). -/
def accStep {Resp : Type} (op : AccOp) (st : FFIState Resp) : FFIState Resp :=
  match op with
  | .reqData h => (request_context_message_ffi h st).2
  | .reqLen h => (request_context_message_len_ffi h st).2
  | .respData h => (response_context_message_ffi h st).2
  | .respLen h => (response_context_message_len_ffi h st).2

/-- Running a sequence of accessor calls, threading the state. -/
def runAccessors {Resp : Type} (ops : List AccOp) (st : FFIState Resp) :
    FFIState Resp :=
  ops.foldl (fun s op => accStep op s) st

/-- One accessor call leaves the state unchanged. -/
theorem accStep_id {Resp : Type} (op : AccOp) (st : FFIState Resp) :
    accStep op st = st := by
  cases op <;> rfl

/-- Any sequence of accessor calls leaves the state unchanged. -/
theorem runAccessors_id {Resp : Type} (ops : List AccOp) (st : FFIState Resp) :
    runAccessors ops st = st := by
  induction ops with
  | nil => rfl
  | cons op ops ih => rw [runAccessors, List.foldl_cons, accStep_id]; exact ih

/-- Claim C9: accessor calls on a live handle are repeatable and mutually
consistent: after any sequence of preceding accessor calls, in any order, the
length accessor returns the same value, equal to the byte length of the buffer
the data accessor returns, for both request and response handles. -/
theorem accessors_repeatable_consistent
    {Resp : Type} (ops : List AccOp) (st : FFIState Resp) (h hr : Nat)
    (ctx : RequestContext Resp) (rctx : ResponseContext)
    (hlive : st.reqHeap.lookup h = some ctx)
    (hrlive : st.respHeap.lookup hr = some rctx) :
    (request_context_message_len_ffi h (runAccessors ops st)).1 =
      some ctx.encapsulated_request.length ∧
    (request_context_message_ffi h (runAccessors ops st)).1 =
      some ctx.encapsulated_request ∧
    (response_context_message_len_ffi hr (runAccessors ops st)).1 =
      some rctx.response.length ∧
    (response_context_message_ffi hr (runAccessors ops st)).1 =
      some rctx.response := by
  rw [runAccessors_id]
  refine ⟨?_, ?_, ?_, ?_⟩
  · simp [request_context_message_len_ffi, hlive]
  · simp [request_context_message_ffi, hlive]
  · simp [response_context_message_len_ffi, hrlive]
  · simp [response_context_message_ffi, hrlive]

/-- Witness for C9 on `stBoth`, after a concrete interleaved sequence of
accessor calls: the lengths still match the buffers the data accessors
return. -/
theorem accessors_repeatable_consistent_witness :
    (request_context_message_len_ffi 0
        (runAccessors [AccOp.reqLen 0, AccOp.respData 1, AccOp.reqData 0]
          stBoth)).1 = some 2 ∧
    (request_context_message_ffi 0
        (runAccessors [AccOp.reqLen 0, AccOp.respData 1, AccOp.reqData 0]
          stBoth)).1 = some [1, 2] ∧
    (response_context_message_len_ffi 1
        (runAccessors [AccOp.reqLen 0, AccOp.respData 1, AccOp.reqData 0]
          stBoth)).1 = some 3 ∧
    (response_context_message_ffi 1
        (runAccessors [AccOp.reqLen 0, AccOp.respData 1, AccOp.reqData 0]
          stBoth)).1 = some [3, 4, 5] :=
  accessors_repeatable_consistent
    [AccOp.reqLen 0, AccOp.respData 1, AccOp.reqData 0] stBoth 0 1
    ⟨[1, 2], 0⟩ ⟨[3, 4, 5]⟩ rfl rfl

/-- Byte-addressed caller memory, for stating that the borrowed input buffers
are not written. -/
abbrev Mem := Nat → Nat

/-- The bytes a raw (pointer, length) slice denotes, as
`slice::from_raw_parts_mut` reads them. -/
def readBytes (m : Mem) (ptr len : Nat) : Bytes :=
  (List.range len).map (fun i => m (ptr + i))

/-- `encapsulate_request_ffi` at the memory level: the config and message
slices are read out of caller memory (`slice::from_raw_parts_mut` immediately
frozen to `&[u8]`); the function body performs no store, so the memory comes
back unchanged. -/
def encapsulate_request_ffi_mem {Req Resp : Type} (E : Engine Req Resp)
    (tid : ThreadId) (m : Mem)
    (encoded_config_ptr encoded_config_len encoded_msg_ptr encoded_msg_len : Nat)
    (st : FFIState Resp) : (Option Nat × FFIState Resp) × Mem :=
  let encoded_config := readBytes m encoded_config_ptr encoded_config_len
  let encoded_msg := readBytes m encoded_msg_ptr encoded_msg_len
  (encapsulate_request_ffi E tid encoded_config encoded_msg st, m)

/-- `decapsulate_response_ffi` at the memory level: the response slice is read
out of caller memory; no store is performed. -/
def decapsulate_response_ffi_mem {Req Resp : Type} (E : Engine Req Resp)
    (tid : ThreadId) (h : Nat) (m : Mem)
    (encapsulated_response_ptr encapsulated_response_len : Nat)
    (st : FFIState Resp) : (Option Nat × FFIState Resp) × Mem :=
  let encapsulated_response :=
    readBytes m encapsulated_response_ptr encapsulated_response_len
  (decapsulate_response_ffi E tid h encapsulated_response st, m)

/-- Claim C10: the caller's input buffers are never modified: after any call to
`encapsulate_request_ffi` or `decapsulate_response_ffi`, in success and failure
alike, caller memory is unchanged, so the borrowed configuration, message and
response-ciphertext slices read back byte-for-byte identical. -/
theorem ffi_does_not_modify_input_buffers
    {Req Resp : Type} (E : Engine Req Resp) (tid : ThreadId) (m : Mem)
    (cfgPtr cfgLen msgPtr msgLen rPtr rLen h : Nat) (st : FFIState Resp) :
    (encapsulate_request_ffi_mem E tid m cfgPtr cfgLen msgPtr msgLen st).2 = m ∧
    readBytes (encapsulate_request_ffi_mem E tid m cfgPtr cfgLen msgPtr msgLen st).2
        cfgPtr cfgLen = readBytes m cfgPtr cfgLen ∧
    readBytes (encapsulate_request_ffi_mem E tid m cfgPtr cfgLen msgPtr msgLen st).2
        msgPtr msgLen = readBytes m msgPtr msgLen ∧
    (decapsulate_response_ffi_mem E tid h m rPtr rLen st).2 = m ∧
    readBytes (decapsulate_response_ffi_mem E tid h m rPtr rLen st).2 rPtr rLen =
      readBytes m rPtr rLen :=
  ⟨rfl, rfl, rfl, rfl, rfl⟩

/-- One FFI boundary call, tagged by the calling thread, for interleaving
traces (the returned values are discarded; only the state transition
matters). -/
inductive FFIOp where
  | encap (cfg msg : Bytes)
  | decap (h : Nat) (resp : Bytes)
  | reqData (h : Nat)
  | reqLen (h : Nat)
  | reqDrop (h : Nat)
  | respData (h : Nat)
  | respLen (h : Nat)

/-- The state transition of one boundary call made on thread `tid`. -/
def ffiStep {Req Resp : Type} (E : Engine Req Resp) (tid : ThreadId)
    (op : FFIOp) (st : FFIState Resp) : FFIState Resp :=
  match op with
  | .encap cfg msg => (encapsulate_request_ffi E tid cfg msg st).2
  | .decap h resp => (decapsulate_response_ffi E tid h resp st).2
  | .reqData h => (request_context_message_ffi h st).2
  | .reqLen h => (request_context_message_len_ffi h st).2
  | .reqDrop h => request_context_message_drop_ffi h st
  | .respData h => (response_context_message_ffi h st).2
  | .respLen h => (response_context_message_len_ffi h st).2

/-- Running an interleaved trace of boundary calls, each tagged with the
thread that makes it. -/
def runTrace {Req Resp : Type} (E : Engine Req Resp)
    (tr : List (ThreadId × FFIOp)) (st : FFIState Resp) : FFIState Resp :=
  tr.foldl (fun s p => ffiStep E p.1 p.2 s) st

/-- A boundary call made on a thread other than `t` leaves thread `t`'s error
slot untouched. -/
theorem ffiStep_lastError_other {Req Resp : Type} (E : Engine Req Resp)
    (tid t : ThreadId) (op : FFIOp) (st : FFIState Resp) (hne : t ≠ tid) :
    (ffiStep E tid op st).lastError t = st.lastError t := by
  cases op with
  | encap cfg msg =>
      cases hc : E.clientRequestNew cfg with
      | error e =>
          simp [ffiStep, encapsulate_request_ffi, hc, update_last_error_other,
            hne]
      | ok client =>
          cases he : E.encapsulate client msg with
          | error e =>
              simp [ffiStep, encapsulate_request_ffi, hc, he,
                update_last_error_other, hne]
          | ok p => simp [ffiStep, encapsulate_request_ffi, hc, he]
  | decap h resp =>
      cases hl : st.reqHeap.lookup h with
      | none => simp [ffiStep, decapsulate_response_ffi, hl]
      | some ctx =>
          cases hd : E.decapsulate ctx.response_context resp with
          | error e =>
              simp [ffiStep, decapsulate_response_ffi, hl, hd,
                update_last_error_other, hne]
          | ok pt => simp [ffiStep, decapsulate_response_ffi, hl, hd]
  | reqData h => rfl
  | reqLen h => rfl
  | reqDrop h => rfl
  | respData h => rfl
  | respLen h => rfl

/-- Claim C8: the error channel is isolated per thread: under any interleaved
trace of boundary calls, a thread's last-failure record is unaffected by the
calls of every other thread — in particular a failing call on thread A
followed by a successful call on thread B leaves B's record unaffected by A's
failure and A's record unaffected by B's activity. -/
theorem error_channel_thread_isolation
    {Req Resp : Type} (E : Engine Req Resp) (tr : List (ThreadId × FFIOp))
    (st : FFIState Resp) (t : ThreadId)
    (hother : ∀ p ∈ tr, p.1 ≠ t) :
    (runTrace E tr st).lastError t = st.lastError t := by
  induction tr generalizing st with
  | nil => rfl
  | cons p tr ih =>
      have hp : p.1 ≠ t := hother p (List.mem_cons_self p tr)
      have htl : ∀ q ∈ tr, q.1 ≠ t := fun q hq =>
        hother q (List.mem_cons_of_mem p hq)
      rw [runTrace, List.foldl_cons]
      have hstep := ffiStep_lastError_other E p.1 t p.2 st (Ne.symm hp)
      calc (runTrace E tr (ffiStep E p.1 p.2 st)).lastError t
          = (ffiStep E p.1 p.2 st).lastError t := ih _ htl
        _ = st.lastError t := hstep

/-- Witness for C8: thread 0 fails twice (bad config, failing decapsulation)
and succeeds once while thread 1 makes no call; thread 1's error slot is
exactly as it started. -/
theorem error_channel_thread_isolation_witness :
    (runTrace stubEngine
        [(0, FFIOp.encap [] ping), (0, FFIOp.encap [1] ping),
          (0, FFIOp.decap 0 []), (0, FFIOp.reqDrop 3)]
        st0).lastError 1 = st0.lastError 1 :=
  error_channel_thread_isolation stubEngine
    [(0, FFIOp.encap [] ping), (0, FFIOp.encap [1] ping),
      (0, FFIOp.decap 0 []), (0, FFIOp.reqDrop 3)]
    st0 1 (by decide)

/-- Outcome of a Rust call that may unwind: either it returns a value or a
panic propagates out of it. -/
inductive PResult (α : Type) where
  | ret (a : α)
  | panicked (msg : String)
deriving DecidableEq

/-- The protocol engine with Rust unwinding made explicit: each operation
either returns its `Result` or panics. -/
structure EngineP (Req Resp : Type) where
  clientRequestNew : Bytes → PResult (Except Nat Req)
  encapsulate : Req → Bytes → PResult (Except Nat (Bytes × Resp))
  decapsulate : Resp → Bytes → PResult (Except Nat Bytes)

/-- `encapsulate_request_ffi` under the unwinding-aware engine: the source
matches only on `Ok`/`Err` and contains no `catch_unwind`, so a panic raised
by either engine call propagates straight out of the boundary function,
reaching neither `update_last_error` nor the null return. -/
def encapsulate_request_ffiP {Req Resp : Type} (E : EngineP Req Resp)
    (tid : ThreadId) (encoded_config encoded_msg : Bytes)
    (st : FFIState Resp) : PResult (Option Nat × FFIState Resp) :=
  match E.clientRequestNew encoded_config with
  | .panicked m => .panicked m
  | .ret (.error err) =>
      .ret (none,
        update_last_error tid (ClientError.RequestContextInitialization err) st)
  | .ret (.ok client) =>
      match E.encapsulate client encoded_msg with
      | .panicked m => .panicked m
      | .ret (.error err) =>
          .ret (none, update_last_error tid (ClientError.EncapsulationFailed err) st)
      | .ret (.ok (enc_request, client_response)) =>
          .ret (some st.nextId,
            { st with
                reqHeap := (st.nextId, ⟨enc_request, client_response⟩) :: st.reqHeap,
                nextId := st.nextId + 1 })

/-- `decapsulate_response_ffi` under the unwinding-aware engine: no
`catch_unwind` in the source, so an engine panic propagates out of the
boundary function. -/
def decapsulate_response_ffiP {Req Resp : Type} (E : EngineP Req Resp)
    (tid : ThreadId) (h : Nat) (encapsulated_response : Bytes)
    (st : FFIState Resp) : PResult (Option Nat × FFIState Resp) :=
  match st.reqHeap.lookup h with
  | none => .ret (none, st)
  | some context =>
      let st₁ : FFIState Resp :=
        { st with reqHeap := st.reqHeap.filter (fun p => p.1 != h) }
      match E.decapsulate context.response_context encapsulated_response with
      | .panicked m => .panicked m
      | .ret (.error err) =>
          .ret (none, update_last_error tid (ClientError.DecapsulationFailed err) st₁)
      | .ret (.ok response) =>
          .ret (some st₁.nextId,
            { st₁ with
                respHeap := (st₁.nextId, ⟨response⟩) :: st₁.respHeap,
                nextId := st₁.nextId + 1 })

/-- An engine whose every operation panics. -/
def boomEngineP : EngineP Bytes Nat where
  clientRequestNew := fun _ => .panicked "boom"
  encapsulate := fun _ _ => .panicked "boom"
  decapsulate := fun _ _ => .panicked "boom"

/-- The stub engine with its `Result` outcomes wrapped in normal returns
(it never panics). -/
def stubEngineP : EngineP Bytes Nat where
  clientRequestNew := fun cfg =>
    .ret (if cfg.length = 0 then .error 0 else .ok cfg)
  encapsulate := fun req msg =>
    .ret (if msg.length = 0 then .error 1 else .ok (req ++ msg, req.length))
  decapsulate := fun n r =>
    .ret (if r.length < n then .error 2 else .ok (r.drop n))

/-- A state holding the single live request handle `0` (capability `1`). -/
def stLive : FFIState Nat :=
  { lastError := fun _ => none,
    reqHeap := [(0, ⟨[1, 2], 1⟩)],
    respHeap := [],
    nextId := 1 }

/-- Claim C7 counterexample: the boundary functions do not catch internal
faults: with an engine whose decapsulation panics, `decapsulate_response_ffi`
on the live handle `0` propagates the panic out of the boundary instead of
recording an error and returning the null sentinel (and likewise the panic of
`encapsulate_request_ffi`'s first engine call propagates). -/
theorem ffi_boundary_panic_not_caught_cex :
    decapsulate_response_ffiP boomEngineP 0 0 [] stLive =
      PResult.panicked "boom" ∧
    encapsulate_request_ffiP boomEngineP 0 [1] ping st0 =
      PResult.panicked "boom" :=
  ⟨rfl, rfl⟩

/-- Claim C7 as amended: faults the engine reports through its `Result`
interface never escape: each of them is converted into the documented
taxonomy error, recorded in the error channel, and turned into a null-sentinel
return with no unwinding; engine panics, however, are not caught. -/
theorem ffi_result_faults_converted_to_errors
    {Req Resp : Type} (E : EngineP Req Resp) (tid : ThreadId)
    (cfg msg respBytes : Bytes) (h : Nat) (st : FFIState Resp)
    (ctx : RequestContext Resp)
    (hlive : st.reqHeap.lookup h = some ctx) :
    (∀ e, E.clientRequestNew cfg = .ret (.error e) →
      encapsulate_request_ffiP E tid cfg msg st =
        .ret (none,
          update_last_error tid (ClientError.RequestContextInitialization e) st)) ∧
    (∀ client e, E.clientRequestNew cfg = .ret (.ok client) →
      E.encapsulate client msg = .ret (.error e) →
      encapsulate_request_ffiP E tid cfg msg st =
        .ret (none, update_last_error tid (ClientError.EncapsulationFailed e) st)) ∧
    (∀ e, E.decapsulate ctx.response_context respBytes = .ret (.error e) →
      decapsulate_response_ffiP E tid h respBytes st =
        .ret (none, update_last_error tid (ClientError.DecapsulationFailed e)
          { st with reqHeap := st.reqHeap.filter (fun p => p.1 != h) })) := by
  refine ⟨fun e he => ?_, fun client e hc he => ?_, fun e he => ?_⟩
  · simp [encapsulate_request_ffiP, he]
  · simp [encapsulate_request_ffiP, hc, he]
  · simp [decapsulate_response_ffiP, hlive, he]

/-- Witness for the amended C7 on the never-panicking stub engine: all three
`Result`-reported faults come back as a normal null return with the matching
recorded error. -/
theorem ffi_result_faults_converted_to_errors_witness :
    encapsulate_request_ffiP stubEngineP 0 [] ping stLive =
      .ret (none,
        update_last_error 0 (ClientError.RequestContextInitialization 0) stLive) ∧
    encapsulate_request_ffiP stubEngineP 0 [1] [] stLive =
      .ret (none, update_last_error 0 (ClientError.EncapsulationFailed 1) stLive) ∧
    decapsulate_response_ffiP stubEngineP 0 0 [] stLive =
      .ret (none, update_last_error 0 (ClientError.DecapsulationFailed 2)
        { stLive with reqHeap := stLive.reqHeap.filter (fun p => p.1 != 0) }) :=
  ⟨(ffi_result_faults_converted_to_errors stubEngineP 0 [] ping [] 0 stLive
      ⟨[1, 2], 1⟩ rfl).1 0 rfl,
    (ffi_result_faults_converted_to_errors stubEngineP 0 [1] [] [] 0 stLive
      ⟨[1, 2], 1⟩ rfl).2.1 [1] 1 rfl rfl,
    (ffi_result_faults_converted_to_errors stubEngineP 0 [1] ping [] 0 stLive
      ⟨[1, 2], 1⟩ rfl).2.2 2 rfl⟩
